import Mathlib

/-!
Verification of the Jira MCP server repository (`mcp_atlassian`).

This file shallowly embeds the two layers the claims are about:

* `servers/jira.py` — the FastMCP tool layer (present in the repository):
  each tool resolves the Jira client from the lifespan context, makes one
  client-method call, transforms the result and serializes it with
  `json.dumps(..., indent=2, ensure_ascii=False)`.

* `jira/client.py` — the `JiraClient` wrapper (its implementation file is
  not part of the repository snapshot; only its unit tests are).  Those
  parts are modelled from the specification and pinned by the assertions
  of `tests/unit/jira/test_client.py`.

Effects (vendor-constructor invocations, SSL configuration, environment
mutation, log lines, HTTP page requests) are made explicit as event
traces so that claims about "no request is issued", "exactly one call",
"created exactly once" and "the token never reaches the log" become
statements about those traces.
-/

/-- JSON values as produced by the Python `json` module for the data the
tools handle (objects keep insertion order, as Python dicts do). -/
inductive Json where
  | null : Json
  | bool : Bool → Json
  | num : Int → Json
  | str : String → Json
  | arr : List Json → Json
  | obj : List (String × Json) → Json

/-- Whether a JSON value is an object (a "mapping" in the spec's words). -/
def Json.isObj : Json → Bool
  | .obj _ => true
  | _ => false

/-- Hexadecimal digit used by the `\u00XX` escapes of `json.dumps`. -/
def hexDigit (n : Nat) : Char :=
  if n < 10 then Char.ofNat (48 + n) else Char.ofNat (87 + n)

/-- Escaping of a single character exactly as `json.dumps` with
`ensure_ascii=False` does: only the two JSON metacharacters and control
characters are escaped; non-ASCII characters pass through unchanged. -/
def escapeJsonChar (c : Char) : String :=
  if c = '"' then "\\\""
  else if c = '\\' then "\\\\"
  else if c = '\n' then "\\n"
  else if c = '\t' then "\\t"
  else if c = '\r' then "\\r"
  else if c.toNat = 8 then "\\b"
  else if c.toNat = 12 then "\\f"
  else if c.toNat < 32 then
    "\\u00" ++ String.mk [hexDigit (c.toNat / 16), hexDigit (c.toNat % 16)]
  else String.singleton c

/-- A JSON string literal: quotes around the escaped characters. -/
def quoteJson (s : String) : String :=
  "\"" ++ String.join (s.data.map escapeJsonChar) ++ "\""

/-- `n` spaces, the indentation prefix used by `json.dumps(indent=2)`. -/
def indentStr (n : Nat) : String := String.mk (List.replicate n ' ')

mutual
/-- `json.dumps(v, indent=2, ensure_ascii=False)` at nesting level `lvl`:
every container item starts on its own line indented two further spaces,
the item separator is a comma followed by a newline, the key separator is
a colon and a space. -/
def dumpsVal : Json → Nat → String
  | .null, _ => "null"
  | .bool true, _ => "true"
  | .bool false, _ => "false"
  | .num n, _ => toString n
  | .str s, _ => quoteJson s
  | .arr [], _ => "[]"
  | .arr (x :: xs), lvl =>
    "[\n" ++ indentStr (lvl + 2) ++ dumpsVal x (lvl + 2) ++
      dumpsItems xs (lvl + 2) ++ "\n" ++ indentStr lvl ++ "]"
  | .obj [], _ => "\x7b\x7d"
  | .obj ((k, v) :: fs), lvl =>
    "\x7b\n" ++ indentStr (lvl + 2) ++ quoteJson k ++ ": " ++
      dumpsVal v (lvl + 2) ++ dumpsFields fs (lvl + 2) ++ "\n" ++
      indentStr lvl ++ "\x7d"

/-- The remaining items of a JSON array, each preceded by `",\n"` and
the indentation of the current level. -/
def dumpsItems : List Json → Nat → String
  | [], _ => ""
  | x :: xs, lvl => ",\n" ++ indentStr lvl ++ dumpsVal x lvl ++ dumpsItems xs lvl

/-- The remaining fields of a JSON object, each preceded by `",\n"` and
the indentation of the current level. -/
def dumpsFields : List (String × Json) → Nat → String
  | [], _ => ""
  | (k, v) :: fs, lvl =>
    ",\n" ++ indentStr lvl ++ quoteJson k ++ ": " ++ dumpsVal v lvl ++
      dumpsFields fs lvl
end

/-- `json.dumps(v, indent=2, ensure_ascii=False)` as called by every tool. -/
def dumps (v : Json) : String := dumpsVal v 0

/-- A Python exception as far as the tool layer observes it: its class
(the tools branch on it only for log levels) and its `str(e)` message. -/
inductive PyErr where
  | valueError (msg : String)
  | runtimeError (msg : String)
  | other (msg : String)

/-- `str(e)` of an exception. -/
def PyErr.msg : PyErr → String
  | .valueError m => m
  | .runtimeError m => m
  | .other m => m

/-! ## String constants of the client layer -/

/-- The continuation-token key of paged Jira Cloud responses. -/
def nextPageTokenKey : String := "nextPageToken"

/-- Error message of `get_paged` on a non-Cloud configuration. -/
def pagedCloudOnlyMsg : String :=
  "Paged requests are only available for Jira Cloud platform"

/-- The single log line of `_create_jira_client_with_pat`. -/
def patLogMsg : String := "Creating Jira client for request using provided PAT."

/-- Service name passed to `configure_ssl_verification`. -/
def serviceJira : String := "Jira"

/-- Environment variable receiving the configured `no_proxy` value. -/
def noProxyEnvVar : String := "NO_PROXY"

/-- The `basic` authentication mode. -/
def authBasic : String := "basic"

/-- The `token` authentication mode. -/
def authToken : String := "token"

/-! ## Configuration and client state -/

/-- Modelled from the spec: `JiraConfig` (its module is not in the
snapshot) "holds configuration (URL, auth mode, credentials, proxy, SSL
verify)"; the fields are the keyword arguments the unit tests construct
it with. -/
structure JiraConfig where
  url : String
  auth_type : String
  username : Option String := none
  api_token : Option String := none
  personal_token : Option String := none
  is_cloud : Bool := true
  ssl_verify : Bool := true
  http_proxy : Option String := none
  https_proxy : Option String := none
  socks_proxy : Option String := none
  no_proxy : Option String := none

/-- Credentials handed to the vendor `Jira` constructor. -/
inductive VendorAuth where
  | basic (username password : String)
  | token (t : String)

/-- The vendor `Jira` client object as far as the tests observe it: the
constructor arguments plus its `_session.proxies` mapping. -/
structure Jira where
  url : String
  auth : VendorAuth
  cloud : Bool
  verify_ssl : Bool
  sessionProxies : List (String × String)

/-- Observable side effects of the client layer. -/
inductive ClientEvent where
  | vendorCreate (url : String) (auth : VendorAuth) (cloud verifySsl : Bool)
  | configureSsl (service url : String) (sslVerify : Bool)
  | setEnv (name value : String)
  | httpRequest (desc : String)

/-- Whether an event is an invocation of the vendor `Jira` constructor. -/
def ClientEvent.isVendorCreate : ClientEvent → Bool
  | .vendorCreate _ _ _ _ => true
  | _ => false

/-- Whether an event is an HTTP request. -/
def ClientEvent.isHttpRequest : ClientEvent → Bool
  | .httpRequest _ => true
  | _ => false

/-- The `JiraClient` object state right after `__init__`, as pinned by
the unit tests: `config`, the `jira` attribute, the two caches, and the
proxies of the session of the vendor client built during `__init__`. -/
structure JiraClientState where
  config : JiraConfig
  jira : Option Jira
  field_ids_cache : Option Unit
  current_user_account_id : Option String
  sessionProxies : List (String × String)

/-- The session `proxies` entries installed from a configuration: each
configured proxy URL under its scheme key, in the order
http, https, socks (`test_init_sets_proxies_and_no_proxy`). -/
def proxyEntries (cfg : JiraConfig) : List (String × String) :=
  (match cfg.http_proxy with
   | some p => [("http", p)]
   | none => []) ++
  (match cfg.https_proxy with
   | some p => [("https", p)]
   | none => []) ++
  (match cfg.socks_proxy with
   | some p => [("socks", p)]
   | none => [])

/-- The `NO_PROXY` environment mutation performed when `no_proxy` is
configured. -/
def noProxyEvents (cfg : JiraConfig) : List ClientEvent :=
  match cfg.no_proxy with
  | some v => [ClientEvent.setEnv noProxyEnvVar v]
  | none => []

/-- The vendor credentials `__init__` builds from the configured auth
mode: username/password for `basic`, the personal token for `token`,
nothing for any other mode. -/
def initVendorAuth (cfg : JiraConfig) : Option VendorAuth :=
  if cfg.auth_type = authBasic then
    some (.basic (cfg.username.getD "") (cfg.api_token.getD ""))
  else if cfg.auth_type = authToken then
    some (.token (cfg.personal_token.getD ""))
  else none

/-- Modelled from the spec: `JiraClient.__init__` (`jira/client.py` is
not in the snapshot).  Pinned by the unit tests: for `basic` auth the
vendor constructor is invoked with username/password, for `token` auth
with the personal token (`test_init_with_basic_auth`,
`test_init_with_token_auth`); for other auth modes no vendor client is
built during `__init__` (`test__create_jira_client_with_pat` sees only
one vendor construction, the PAT one).  SSL verification is configured
on the new session, the configured proxies are installed on it and
`NO_PROXY` is exported (`test_init_sets_proxies_and_no_proxy`).  The
`jira` attribute and both caches are left `None`
(`test_init_jira_is_none`).  No HTTP request is issued. -/
def initJiraClient (cfg : JiraConfig) : JiraClientState × List ClientEvent :=
  match initVendorAuth cfg with
  | some auth =>
    ({ config := cfg, jira := none, field_ids_cache := none,
       current_user_account_id := none, sessionProxies := proxyEntries cfg },
     [ClientEvent.vendorCreate cfg.url auth cfg.is_cloud cfg.ssl_verify,
      ClientEvent.configureSsl serviceJira cfg.url cfg.ssl_verify] ++
       noProxyEvents cfg)
  | none =>
    ({ config := cfg, jira := none, field_ids_cache := none,
       current_user_account_id := none, sessionProxies := [] },
     [])

/-- Result of `_create_jira_client_with_pat`: the (unchanged) server
state, the transient vendor client, the effects and the log lines. -/
structure PatCreateResult where
  state : JiraClientState
  client : Jira
  events : List ClientEvent
  logs : List String

/-- Modelled from the spec: `JiraClient._create_jira_client_with_pat`
(`jira/client.py` is not in the snapshot), pinned by
`test__create_jira_client_with_pat`: logs a fixed line, invokes the
vendor constructor with the server URL, the supplied token, the server
cloud flag and SSL-verify setting, configures SSL verification on the
new session, installs the configured proxies on it, and returns the new
client; the server state is not touched. -/
def create_jira_client_with_pat (st : JiraClientState) (pat : String) :
    PatCreateResult :=
  let cfg := st.config
  { state := st,
    client :=
      { url := cfg.url, auth := .token pat, cloud := cfg.is_cloud,
        verify_ssl := cfg.ssl_verify, sessionProxies := proxyEntries cfg },
    events :=
      [ClientEvent.vendorCreate cfg.url (.token pat) cfg.is_cloud cfg.ssl_verify,
       ClientEvent.configureSsl serviceJira cfg.url cfg.ssl_verify],
    logs := [patLogMsg] }

/-! ## Paged fetch -/

/-- The two HTTP verbs `get_paged` dispatches over. -/
inductive Verb where
  | get
  | post

/-- Which client object issues a page request: the server's default
client or the transient PAT-scoped one. -/
inductive Issuer where
  | defaultClient
  | transient (pat : String)

/-- How the parameters travel: as query parameters of a GET request or
as the JSON body of a POST request. -/
inductive Carrier where
  | queryParams
  | jsonBody

/-- The parameter carrier determined by the verb: `Jira.get` receives
them as `params=`, `Jira.post` as `json=`. -/
def Verb.carrier : Verb → Carrier
  | .get => .queryParams
  | .post => .jsonBody

/-- One page request as recorded by the unit tests: the verb, the client
object that issued it, the path, the parameter mapping, how the
parameters travel, and the `absolute` flag (always `False`). -/
structure PageRequest where
  verb : Verb
  issuer : Issuer
  path : String
  params : List (String × Json)
  carrier : Carrier
  absolute : Bool

/-- Python `d[k] = v` on an insertion-ordered dict (keys are unique):
replace the value in place when the key is present, append the pair
otherwise. -/
def setParam : List (String × Json) → String → Json → List (String × Json)
  | [], k, v => [(k, v)]
  | (k', v') :: ps, k, v =>
    if k' = k then (k, v) :: ps else (k', v') :: setParam ps k v

/-- `response.get("nextPageToken")`-style lookup on a JSON value: a key
lookup when the value is an object, absent otherwise. -/
def jlookup (j : Json) (k : String) : Option Json :=
  match j with
  | .obj fields => fields.lookup k
  | _ => none

/-- Modelled from the spec: the loop body of `JiraClient.get_paged`
(`jira/client.py` is not in the snapshot) — "repeatedly invoking the
same endpoint with an advancing continuation token until the server
omits one".  The server's behaviour is the list of responses it will
return in order; the loop issues a request with the current parameters,
consumes the next response, appends it to the results, and either
continues with `params["nextPageToken"]` set to the response's token or
stops at the first response without one (pinned by `_test_get_paged`:
`path=`/`params=`/`json=`/`absolute=False` arguments and the token
merge).  Returns the requests issued and the collected pages. -/
def getPagedLoop (v : Verb) (i : Issuer) (path : String) :
    List (String × Json) → List Json → List PageRequest × List Json
  | _, [] => ([], [])
  | params, r :: rest =>
    let req : PageRequest :=
      { verb := v, issuer := i, path := path, params := params,
        carrier := v.carrier, absolute := false }
    match jlookup r nextPageTokenKey with
    | some tok =>
      let next := getPagedLoop v i path (setParam params nextPageTokenKey tok) rest
      (req :: next.1, r :: next.2)
    | none => ([req], [r])

/-- The outcome of `get_paged`: the PATs for which a transient client
was constructed (in order), the page requests issued, and the returned
page list or the raised exception. -/
structure PagedOutcome where
  creations : List String
  requests : List PageRequest
  result : Except PyErr (List Json)

/-- Modelled from the spec: `JiraClient.get_paged` (`jira/client.py` is
not in the snapshot).  Raises `ValueError` before any request unless
the configuration is Jira Cloud (`test_get_paged_without_cloud`); when a
non-empty PAT is supplied, constructs one transient client via
`_create_jira_client_with_pat` and runs the loop through it
(`test_get_paged_with_pat`), otherwise runs the loop through the
server's default client. -/
def get_paged (st : JiraClientState) (v : Verb) (path : String)
    (params : List (String × Json)) (pat : Option String)
    (responses : List Json) : PagedOutcome :=
  if st.config.is_cloud = false then
    { creations := [], requests := [],
      result := .error (.valueError pagedCloudOnlyMsg) }
  else
    match pat with
    | some p =>
      if p = "" then
        let run := getPagedLoop v .defaultClient path params responses
        { creations := [], requests := run.1, result := .ok run.2 }
      else
        let run := getPagedLoop v (.transient p) path params responses
        { creations := [p], requests := run.1, result := .ok run.2 }
    | none =>
      let run := getPagedLoop v .defaultClient path params responses
      { creations := [], requests := run.1, result := .ok run.2 }

/-- A well-formed paged response sequence in the claim's sense: every
response except the last carries a `nextPageToken`, the last does not. -/
inductive WFStream : List Json → Prop
  | last (r : Json) : jlookup r nextPageTokenKey = none → WFStream [r]
  | cons (r : Json) (t : Json) (rest : List Json) :
      jlookup r nextPageTokenKey = some t → WFStream rest →
      WFStream (r :: rest)

/-- The request sequence the claim predicts: the first request carries
the initial parameters; the `k`-th request (`k ≥ 1`) carries the initial
parameters plus the `(k-1)`-th response's token under `nextPageToken`;
all requests use the given verb (with its parameter carrier), issuer and
path, and `absolute=False`. -/
def expectedRequests (v : Verb) (i : Issuer) (path : String)
    (params : List (String × Json)) (responses : List Json) :
    List PageRequest :=
  match responses with
  | [] => []
  | _ :: _ =>
    { verb := v, issuer := i, path := path, params := params,
      carrier := v.carrier, absolute := false } ::
      responses.dropLast.map (fun r =>
        { verb := v, issuer := i, path := path,
          params := setParam params nextPageTokenKey
            ((jlookup r nextPageTokenKey).getD .null),
          carrier := v.carrier, absolute := false })

/-! ## Tool layer (`servers/jira.py`) -/

/-- Message of the `ValueError` every tool but `search` raises when the
Jira client is unavailable. -/
def noClientMsg : String := "Jira client is not configured or available."

/-- Message of the `RuntimeError` the `search` tool raises instead. -/
def searchNoClientMsg : String :=
  "Jira client is not initialized in the server lifespan context."

/-- A Python value as it appears among the keyword arguments of a
client-method call. -/
inductive PyVal where
  | str (s : String)
  | strList (l : List String)
  | int (n : Int)
  | bool (b : Bool)
  | noneVal
  | json (j : Json)
  | jsonList (l : List Json)

/-- One call to a method of the Jira client, as a tool issues it: the
method name and the arguments passed. -/
structure ClientCall where
  method : String
  args : List (String × PyVal)

/-- The lifespan context as the tools test it: `none` when the context
itself is absent/falsy, `some none` when its `jira` client is not set. -/
abbrev LifespanCtx : Type := Option (Option Unit)

/-- The guard every tool but `search` runs first:
`if not lifespan_ctx or not lifespan_ctx.jira: raise ValueError(...)`. -/
def checkJira (lctx : LifespanCtx) : Except PyErr Unit :=
  match lctx with
  | some (some _) => .ok ()
  | _ => .error (.valueError noClientMsg)

/-- The same guard in the `search` tool, which raises a `RuntimeError`
with a more specific message. -/
def checkJiraSearch (lctx : LifespanCtx) : Except PyErr Unit :=
  match lctx with
  | some (some _) => .ok ()
  | _ => .error (.runtimeError searchNoClientMsg)

/-- An optional string argument forwarded as-is (`None` stays `None`). -/
def optStr : Option String → PyVal
  | some s => .str s
  | none => .noneVal

/-- The `fields` preprocessing shared by `get_issue`, `search`,
`get_board_issues` and `get_sprint_issues`:
`fields_list = [f.strip() for f in fields.split(",")]` unless `fields`
is falsy or `"*all"`, in which case the string (or `None`) is passed
through. -/
def parseFields : Option String → PyVal
  | none => .noneVal
  | some f =>
    if f = "" ∨ f = "*all" then .str f
    else .strList ((f.splitOn ",").map (fun s => s.trim))

/-- The `properties` preprocessing of `get_issue`:
`properties.split(",") if properties else None` (no strip). -/
def parseProperties : Option String → PyVal
  | none => .noneVal
  | some p => if p = "" then .noneVal else .strList (p.splitOn ",")

/-- An optional string-list argument (`labels`). -/
def optStrList : Option (List String) → PyVal
  | some l => .strList l
  | none => .noneVal

/-- An optional dict argument (`custom_fields`). -/
def optJson : Option Json → PyVal
  | some j => .json j
  | none => .noneVal

/-- What a tool invocation produces: the client-method calls it issued,
and either the returned JSON text or the exception it raised. -/
abbrev ToolRun : Type := List ClientCall × Except PyErr String

namespace Tools

/-!
The sixteen tools of `servers/jira.py`.  Each takes the lifespan
context, its declared parameters, and the behaviour of the single
client-method call it makes, given as `rsp` — the simplified
dictionary/list the model layer would produce from the client's return
value (the model layer is opaque data-to-dict shaping), or the
exception the call raises.
-/

/-- `get_user_profile` (servers/jira.py:26-88): guard, one call to
`get_user_profile_by_identifier`, catch-all `except` that formats an
error object carrying `str(e)` and the requested identifier. -/
def get_user_profile (lctx : LifespanCtx) (user_identifier : String)
    (jira_pat : String) (rsp : Except PyErr Json) : ToolRun :=
  match checkJira lctx with
  | .error e => ([], .error e)
  | .ok _ =>
    let c : ClientCall :=
      { method := "get_user_profile_by_identifier",
        args := [("user_identifier", .str user_identifier),
                 ("jira_pat", .str jira_pat)] }
    ([c],
     match rsp with
     | .ok user =>
       .ok (dumps (.obj [("success", .bool true), ("user", user)]))
     | .error e =>
       .ok (dumps (.obj [("success", .bool false),
                         ("error", .str e.msg),
                         ("user_identifier", .str user_identifier)])))

/-- `get_issue` (servers/jira.py:92-177): guard, fields preprocessing,
one call to `get_issue`, no `try` — exceptions propagate. -/
def get_issue (lctx : LifespanCtx) (issue_key : String) (jira_pat : String)
    (fields : Option String) (expand : Option String) (comment_limit : Int)
    (properties : Option String) (update_history : Bool)
    (rsp : Except PyErr Json) : ToolRun :=
  match checkJira lctx with
  | .error e => ([], .error e)
  | .ok _ =>
    let c : ClientCall :=
      { method := "get_issue",
        args := [("issue_key", .str issue_key),
                 ("fields", parseFields fields),
                 ("expand", optStr expand),
                 ("comment_limit", .int comment_limit),
                 ("properties", parseProperties properties),
                 ("update_history", .bool update_history),
                 ("jira_pat", .str jira_pat)] }
    ([c], rsp.map dumps)

/-- `search` (servers/jira.py:181-275): RuntimeError guard, one call to
`search_issues` (its token parameter is not forwarded), `except` that
logs and re-raises. -/
def search (lctx : LifespanCtx) (jql : String)
    (JIRA_PERSONAL_TOKEN : String) (fields : Option String) (limit : Int)
    (start_at : Int) (projects_filter : Option String)
    (expand : Option String) (rsp : Except PyErr Json) : ToolRun :=
  match checkJiraSearch lctx with
  | .error e => ([], .error e)
  | .ok _ =>
    let c : ClientCall :=
      { method := "search_issues",
        args := [("jql", .str jql),
                 ("fields", parseFields fields),
                 ("limit", .int limit),
                 ("start", .int start_at),
                 ("expand", optStr expand),
                 ("projects_filter", optStr projects_filter)] }
    ([c], rsp.map dumps)

/-- `search_fields` (servers/jira.py:279-314): guard, one call to
`search_fields`, exceptions propagate. -/
def search_fields (lctx : LifespanCtx) (jira_pat : String)
    (keyword : String) (limit : Int) (refresh : Bool)
    (rsp : Except PyErr Json) : ToolRun :=
  match checkJira lctx with
  | .error e => ([], .error e)
  | .ok _ =>
    let c : ClientCall :=
      { method := "search_fields",
        args := [("keyword", .str keyword),
                 ("limit", .int limit),
                 ("refresh", .bool refresh),
                 ("jira_pat", .str jira_pat)] }
    ([c], rsp.map dumps)

/-- `get_project_issues` (servers/jira.py:318-351): guard, one call to
`get_project_issues`, exceptions propagate. -/
def get_project_issues (lctx : LifespanCtx) (project_key : String)
    (jira_pat : String) (limit : Int) (start_at : Int)
    (rsp : Except PyErr Json) : ToolRun :=
  match checkJira lctx with
  | .error e => ([], .error e)
  | .ok _ =>
    let c : ClientCall :=
      { method := "get_project_issues",
        args := [("project_key", .str project_key),
                 ("start", .int start_at),
                 ("limit", .int limit),
                 ("jira_pat", .str jira_pat)] }
    ([c], rsp.map dumps)

/-- `get_transitions` (servers/jira.py:355-376): guard, one call to
`get_available_transitions` (already a list of dicts, dumped as-is),
exceptions propagate. -/
def get_transitions (lctx : LifespanCtx) (issue_key : String)
    (jira_pat : String) (rsp : Except PyErr Json) : ToolRun :=
  match checkJira lctx with
  | .error e => ([], .error e)
  | .ok _ =>
    let c : ClientCall :=
      { method := "get_available_transitions",
        args := [("issue_key", .str issue_key),
                 ("jira_pat", .str jira_pat)] }
    ([c], rsp.map dumps)

/-- `get_worklog` (servers/jira.py:380-401): guard, one call to
`get_worklogs`, result wrapped as `{"worklogs": ...}`, exceptions
propagate. -/
def get_worklog (lctx : LifespanCtx) (issue_key : String)
    (jira_pat : String) (rsp : Except PyErr Json) : ToolRun :=
  match checkJira lctx with
  | .error e => ([], .error e)
  | .ok _ =>
    let c : ClientCall :=
      { method := "get_worklogs",
        args := [("issue_key", .str issue_key),
                 ("jira_pat", .str jira_pat)] }
    ([c], rsp.map (fun w => dumps (.obj [("worklogs", w)])))

/-- `download_attachments` (servers/jira.py:405-429): guard, one call to
`download_issue_attachments`, exceptions propagate. -/
def download_attachments (lctx : LifespanCtx) (issue_key : String)
    (target_dir : String) (jira_pat : String)
    (rsp : Except PyErr Json) : ToolRun :=
  match checkJira lctx with
  | .error e => ([], .error e)
  | .ok _ =>
    let c : ClientCall :=
      { method := "download_issue_attachments",
        args := [("issue_key", .str issue_key),
                 ("target_dir", .str target_dir),
                 ("jira_pat", .str jira_pat)] }
    ([c], rsp.map dumps)

/-- `get_agile_boards` (servers/jira.py:433-482): guard, one call to
`get_all_agile_boards_model`, list of simplified dicts dumped as a JSON
array, exceptions propagate. -/
def get_agile_boards (lctx : LifespanCtx) (jira_pat : String)
    (board_name : Option String) (project_key : Option String)
    (board_type : Option String) (start_at : Int) (limit : Int)
    (rsp : Except PyErr (List Json)) : ToolRun :=
  match checkJira lctx with
  | .error e => ([], .error e)
  | .ok _ =>
    let c : ClientCall :=
      { method := "get_all_agile_boards_model",
        args := [("board_name", optStr board_name),
                 ("project_key", optStr project_key),
                 ("board_type", optStr board_type),
                 ("start", .int start_at),
                 ("limit", .int limit),
                 ("jira_pat", .str jira_pat)] }
    ([c], rsp.map (fun boards => dumps (.arr boards)))

/-- `get_board_issues` (servers/jira.py:486-567): guard, fields
preprocessing, one call to `get_board_issues`, exceptions propagate. -/
def get_board_issues (lctx : LifespanCtx) (board_id : String)
    (jql : String) (jira_pat : String) (fields : Option String)
    (start_at : Int) (limit : Int) (expand : Option String)
    (rsp : Except PyErr Json) : ToolRun :=
  match checkJira lctx with
  | .error e => ([], .error e)
  | .ok _ =>
    let c : ClientCall :=
      { method := "get_board_issues",
        args := [("board_id", .str board_id),
                 ("jql", .str jql),
                 ("fields", parseFields fields),
                 ("start", .int start_at),
                 ("limit", .int limit),
                 ("expand", optStr expand),
                 ("jira_pat", .str jira_pat)] }
    ([c], rsp.map dumps)

/-- `get_sprints_from_board` (servers/jira.py:571-616): guard, one call
to `get_sprints_from_board`, list of simplified dicts dumped as a JSON
array, exceptions propagate. -/
def get_sprints_from_board (lctx : LifespanCtx) (board_id : String)
    (jira_pat : String) (state : Option String) (start_at : Int)
    (limit : Int) (rsp : Except PyErr (List Json)) : ToolRun :=
  match checkJira lctx with
  | .error e => ([], .error e)
  | .ok _ =>
    let c : ClientCall :=
      { method := "get_sprints_from_board",
        args := [("board_id", .str board_id),
                 ("state", optStr state),
                 ("start", .int start_at),
                 ("limit", .int limit),
                 ("jira_pat", .str jira_pat)] }
    ([c], rsp.map (fun sprints => dumps (.arr sprints)))

/-- `get_sprint_issues` (servers/jira.py:620-687): guard, fields
preprocessing, one call to `get_sprint_issues`, exceptions propagate. -/
def get_sprint_issues (lctx : LifespanCtx) (board_id : String)
    (sprint_id : String) (jira_pat : String) (fields : Option String)
    (start_at : Int) (limit : Int) (expand : Option String)
    (rsp : Except PyErr Json) : ToolRun :=
  match checkJira lctx with
  | .error e => ([], .error e)
  | .ok _ =>
    let c : ClientCall :=
      { method := "get_sprint_issues",
        args := [("board_id", .str board_id),
                 ("sprint_id", .str sprint_id),
                 ("fields", parseFields fields),
                 ("start", .int start_at),
                 ("limit", .int limit),
                 ("expand", optStr expand),
                 ("jira_pat", .str jira_pat)] }
    ([c], rsp.map dumps)

/-- `get_link_types` (servers/jira.py:691-709): guard, one call to
`get_issue_link_types`, dumped as-is, exceptions propagate. -/
def get_link_types (lctx : LifespanCtx) (jira_pat : String)
    (rsp : Except PyErr Json) : ToolRun :=
  match checkJira lctx with
  | .error e => ([], .error e)
  | .ok _ =>
    let c : ClientCall :=
      { method := "get_issue_link_types",
        args := [("jira_pat", .str jira_pat)] }
    ([c], rsp.map dumps)

/-- `create_issue` (servers/jira.py:713-812): guard, one call to
`create_issue`, catch-all `except` formatting
`{"success": False, "error": "Failed to create issue: " + str(e)}`. -/
def create_issue (lctx : LifespanCtx) (project_key : String)
    (issue_type : String) (summary : String) (jira_pat : String)
    (description : Option String) (parent_key : Option String)
    (assignee_id : Option String) (reporter_id : Option String)
    (priority_name : Option String) (labels : Option (List String))
    (due_date : Option String) (custom_fields : Option Json)
    (rsp : Except PyErr Json) : ToolRun :=
  match checkJira lctx with
  | .error e => ([], .error e)
  | .ok _ =>
    let c : ClientCall :=
      { method := "create_issue",
        args := [("project_key", .str project_key),
                 ("issue_type", .str issue_type),
                 ("summary", .str summary),
                 ("description", optStr description),
                 ("parent_key", optStr parent_key),
                 ("assignee_id", optStr assignee_id),
                 ("reporter_id", optStr reporter_id),
                 ("priority_name", optStr priority_name),
                 ("labels", optStrList labels),
                 ("due_date", optStr due_date),
                 ("custom_fields", optJson custom_fields),
                 ("jira_pat", .str jira_pat)] }
    ([c],
     match rsp with
     | .ok issue =>
       .ok (dumps (.obj [("success", .bool true), ("issue", issue)]))
     | .error e =>
       .ok (dumps (.obj [("success", .bool false),
                         ("error", .str ("Failed to create issue: " ++ e.msg))])))

/-- `batch_create_issues` (servers/jira.py:816-852): guard, one call to
`batch_create_issues`, catch-all `except` formatting
`{"success": False, "error": "Failed to batch create issues: " + str(e)}`. -/
def batch_create_issues (lctx : LifespanCtx) (issues : List Json)
    (jira_pat : String) (rsp : Except PyErr Json) : ToolRun :=
  match checkJira lctx with
  | .error e => ([], .error e)
  | .ok _ =>
    let c : ClientCall :=
      { method := "batch_create_issues",
        args := [("issues", .jsonList issues),
                 ("jira_pat", .str jira_pat)] }
    ([c],
     match rsp with
     | .ok results =>
       .ok (dumps (.obj [("success", .bool true), ("results", results)]))
     | .error e =>
       .ok (dumps (.obj [("success", .bool false),
                         ("error",
                          .str ("Failed to batch create issues: " ++ e.msg))])))

/-- `batch_get_changelogs` (servers/jira.py:856-903): guard, one call to
`batch_get_changelogs`, catch-all `except` formatting
`{"error": "Failed to get changelogs: " + str(e)}` — with no success
flag on either path. -/
def batch_get_changelogs (lctx : LifespanCtx) (jira_pat : String)
    (issue_ids_or_keys : List String) (start_at : Int) (limit : Int)
    (rsp : Except PyErr Json) : ToolRun :=
  match checkJira lctx with
  | .error e => ([], .error e)
  | .ok _ =>
    let c : ClientCall :=
      { method := "batch_get_changelogs",
        args := [("issue_ids_or_keys", .strList issue_ids_or_keys),
                 ("start_at", .int start_at),
                 ("limit", .int limit),
                 ("jira_pat", .str jira_pat)] }
    ([c],
     match rsp with
     | .ok changelogs =>
       .ok (dumps (.obj [("changelogs", changelogs)]))
     | .error e =>
       .ok (dumps (.obj [("error",
                          .str ("Failed to get changelogs: " ++ e.msg))])))

end Tools

/-! ## Concrete demonstration inputs (from the unit tests) -/

/-- Occurrence of one string inside another (as a character sequence). -/
def strOccurs (needle hay : String) : Prop := needle.data <:+: hay.data

/-- The basic-auth Cloud configuration the unit tests construct. -/
def demoBasicCfg : JiraConfig :=
  { url := "https://test.atlassian.net", auth_type := "basic",
    username := some "test_username", api_token := some "test_token",
    is_cloud := true }

/-- A client state over `demoBasicCfg` (as after `__init__`). -/
def demoSt : JiraClientState := (initJiraClient demoBasicCfg).1

/-- The non-Cloud token configuration of `test_get_paged_without_cloud`. -/
def demoServerCfg : JiraConfig :=
  { url := "https://jira.example.com", auth_type := "token",
    personal_token := some "test_token", is_cloud := false }

/-- The three mock pages of `_test_get_paged`: the first two carry a
`nextPageToken`, the last does not. -/
def demoResponses : List Json :=
  [.obj [("data", .str "page1"), ("nextPageToken", .str "token1")],
   .obj [("data", .str "page2"), ("nextPageToken", .str "token2")],
   .obj [("data", .str "page3")]]

/-- The initial parameters of `_test_get_paged`. -/
def demoParams : List (String × Json) := [("initial", .str "params")]

/-! ## Helper lemmas -/

/-- Setting the same key twice keeps only the last value. -/
theorem setParam_setParam (ps : List (String × Json)) (k : String)
    (v₁ v₂ : Json) : setParam (setParam ps k v₁) k v₂ = setParam ps k v₂ := by
  induction ps with
  | nil => simp [setParam]
  | cons p ps ih =>
    obtain ⟨k', v'⟩ := p
    by_cases h : k' = k
    · simp [setParam, h]
    · simp [setParam, h, ih]

/-- A well-formed response stream is non-empty. -/
theorem WFStream.ne_nil {rs : List Json} (h : WFStream rs) : rs ≠ [] := by
  cases h <;> simp

/-- Unfolding of the claim's predicted request list across a response
that carries a token: the subsequent requests are those predicted for
the tail starting from the merged parameters (merging twice keeps only
the last token). -/
theorem expectedRequests_cons (v : Verb) (i : Issuer) (path : String)
    (params : List (String × Json)) (r t : Json) {rest : List Json}
    (hr : jlookup r nextPageTokenKey = some t) (hne : rest ≠ []) :
    expectedRequests v i path params (r :: rest) =
      { verb := v, issuer := i, path := path, params := params,
        carrier := v.carrier, absolute := false } ::
        expectedRequests v i path (setParam params nextPageTokenKey t) rest := by
  obtain ⟨x, xs, rfl⟩ := List.exists_cons_of_ne_nil hne
  simp only [expectedRequests, List.dropLast_cons₂, List.map_cons, hr,
    Option.getD_some, List.cons.injEq, true_and]
  refine List.map_congr_left ?_
  intro a _
  simp [setParam_setParam]

/-- On a well-formed response stream the loop issues exactly the
requests the claim predicts and returns every response in order. -/
theorem getPagedLoop_eq_expected (v : Verb) (i : Issuer) (path : String) :
    ∀ {rs : List Json}, WFStream rs → ∀ params,
      getPagedLoop v i path params rs =
        (expectedRequests v i path params rs, rs) := by
  intro rs h
  induction h with
  | last r hr =>
    intro params
    simp [getPagedLoop, expectedRequests, hr]
  | cons r t rest hr hwf ih =>
    intro params
    rw [expectedRequests_cons v i path params r t hr hwf.ne_nil]
    simp only [getPagedLoop, hr]
    rw [ih (setParam params nextPageTokenKey t)]

/-- The pages the loop returns do not depend on which client issues the
requests. -/
theorem getPagedLoop_pages_issuer (v : Verb) (path : String)
    (i i' : Issuer) :
    ∀ (rs : List Json) (params : List (String × Json)),
      (getPagedLoop v i path params rs).2 =
        (getPagedLoop v i' path params rs).2 := by
  intro rs
  induction rs with
  | nil => intro params; rfl
  | cons r rest ih =>
    intro params
    cases h : jlookup r nextPageTokenKey <;> simp [getPagedLoop, h, ih]

/-- Every request the loop issues is issued by the given client. -/
theorem getPagedLoop_issuer (v : Verb) (i : Issuer) (path : String) :
    ∀ (rs : List Json) (params : List (String × Json)),
      ∀ req ∈ (getPagedLoop v i path params rs).1, req.issuer = i := by
  intro rs
  induction rs with
  | nil => intro params req h; simp [getPagedLoop] at h
  | cons r rest ih =>
    intro params req h
    cases htok : jlookup r nextPageTokenKey <;>
      simp only [getPagedLoop, htok] at h
    · rcases List.mem_singleton.mp h with rfl
      rfl
    · rcases List.mem_cons.mp h with rfl | h
      · rfl
      · exact ih _ req h

/-- The loop stops at the first response without a token: anything the
server could have produced afterwards is never requested. -/
theorem getPagedLoop_stops (v : Verb) (i : Issuer) (path : String) :
    ∀ {rs : List Json}, WFStream rs →
      ∀ (params : List (String × Json)) (extra : List Json),
        getPagedLoop v i path params (rs ++ extra) =
          getPagedLoop v i path params rs := by
  intro rs h
  induction h with
  | last r hr =>
    intro params extra
    cases extra <;> simp [getPagedLoop, hr]
  | cons r t rest hr hwf ih =>
    intro params extra
    simp [getPagedLoop, hr, ih]

/-- On a well-formed stream the number of predicted requests equals the
number of responses. -/
theorem expectedRequests_length (v : Verb) (i : Issuer) (path : String)
    (params : List (String × Json)) {rs : List Json} (h : rs ≠ []) :
    (expectedRequests v i path params rs).length = rs.length := by
  obtain ⟨x, xs, rfl⟩ := List.exists_cons_of_ne_nil h
  simp [expectedRequests]

/-! ## Claims -/

/-- C1: for every method in get/post, path and initial parameters,
`get_paged` repeatedly invokes the same endpoint; on a response sequence
whose first `n-1` elements carry a `nextPageToken` and whose last omits
it, it issues exactly `n` requests — the `k`-th (`k > 1`) carrying the
initial parameters plus the `(k-1)`-th response's token under
`nextPageToken` (see `expectedRequests`, which also records that the
parameters travel as query params for get and as the JSON body for
post, and that every request uses the given verb, so the other verb's
endpoint is never invoked) — stops after the first token-less response,
and returns all `n` responses in request order. -/
theorem claim_C1_paged_fetch (st : JiraClientState) (v : Verb) (path : String)
    (params : List (String × Json)) {responses : List Json}
    (hcloud : st.config.is_cloud = true) (hwf : WFStream responses) :
    (get_paged st v path params none responses).creations = [] ∧
    (get_paged st v path params none responses).requests =
      expectedRequests v .defaultClient path params responses ∧
    (get_paged st v path params none responses).requests.length =
      responses.length ∧
    (get_paged st v path params none responses).result = .ok responses ∧
    ∀ extra : List Json,
      get_paged st v path params none (responses ++ extra) =
        get_paged st v path params none responses := by
  have hloop := getPagedLoop_eq_expected v .defaultClient path hwf params
  refine ⟨?_, ?_, ?_, ?_, ?_⟩
  · simp [get_paged, hcloud]
  · simp [get_paged, hcloud, hloop]
  · simp only [get_paged, hcloud]
    simp [hloop, expectedRequests_length v .defaultClient path params hwf.ne_nil]
  · simp [get_paged, hcloud, hloop]
  · intro extra
    simp [get_paged, hcloud, getPagedLoop_stops v .defaultClient path hwf params extra]

/-- Witness for C1 at the concrete inputs of `_test_get_paged`: the
three mock pages are returned in order through three requests. -/
theorem claim_C1_paged_fetch_witness :
    demoSt.config.is_cloud = true ∧ WFStream demoResponses ∧
    (get_paged demoSt Verb.get "/test/url" demoParams none demoResponses).requests.length = 3 ∧
    (get_paged demoSt Verb.get "/test/url" demoParams none demoResponses).result =
      .ok demoResponses := by
  have h1 : demoSt.config.is_cloud = true := rfl
  have h2 : WFStream demoResponses :=
    .cons _ (.str "token1") _ rfl (.cons _ (.str "token2") _ rfl (.last _ rfl))
  have h := claim_C1_paged_fetch demoSt Verb.get "/test/url" demoParams h1 h2
  exact ⟨h1, h2, by rw [h.2.2.1]; rfl, h.2.2.2.1⟩

/-- C2: when a non-empty PAT is supplied, `get_paged` constructs the
transient client exactly once, every page request is issued by it (so
the default client issues none), and the returned page list is the one
the default client would have produced. -/
theorem claim_C2_pat_transient (st : JiraClientState) (v : Verb) (path : String)
    (params : List (String × Json)) (responses : List Json) (p : String)
    (hcloud : st.config.is_cloud = true) (hp : p ≠ "") :
    (get_paged st v path params (some p) responses).creations = [p] ∧
    (∀ req ∈ (get_paged st v path params (some p) responses).requests,
      req.issuer = .transient p) ∧
    (get_paged st v path params (some p) responses).result =
      (get_paged st v path params none responses).result := by
  refine ⟨?_, ?_, ?_⟩
  · simp [get_paged, hcloud, hp]
  · intro req hreq
    simp only [get_paged, hcloud] at hreq
    simp only [Bool.true_eq_false, if_false, if_neg hp] at hreq
    exact getPagedLoop_issuer v (.transient p) path responses params req hreq
  · simp only [get_paged, hcloud]
    simp [hp, getPagedLoop_pages_issuer v path (.transient p) .defaultClient responses params]

/-- Witness for C2 at the concrete inputs of `test_get_paged_with_pat`. -/
theorem claim_C2_pat_transient_witness :
    demoSt.config.is_cloud = true ∧ "test_provided_pat" ≠ "" ∧
    (get_paged demoSt Verb.get "/test/url" demoParams
        (some "test_provided_pat") demoResponses).creations = ["test_provided_pat"] := by
  have h1 : demoSt.config.is_cloud = true := rfl
  have h2 : "test_provided_pat" ≠ "" := by decide
  exact ⟨h1, h2,
    (claim_C2_pat_transient demoSt Verb.get "/test/url" demoParams
      demoResponses "test_provided_pat" h1 h2).1⟩

/-- C8: on a non-Cloud configuration `get_paged` raises
`ValueError("Paged requests are only available for Jira Cloud
platform")` before issuing any HTTP request, whatever the method, path,
parameters or PAT. -/
theorem claim_C8_cloud_guard (st : JiraClientState) (v : Verb) (path : String)
    (params : List (String × Json)) (pat : Option String)
    (responses : List Json) (h : st.config.is_cloud = false) :
    get_paged st v path params pat responses =
      { creations := [], requests := [],
        result := .error (.valueError pagedCloudOnlyMsg) } := by
  simp [get_paged, h]

/-- Witness for C8 at the concrete configuration of
`test_get_paged_without_cloud`. -/
theorem claim_C8_cloud_guard_witness :
    (initJiraClient demoServerCfg).1.config.is_cloud = false ∧
    get_paged (initJiraClient demoServerCfg).1 Verb.get "/test/url" [] none [] =
      { creations := [], requests := [],
        result := .error (.valueError pagedCloudOnlyMsg) } :=
  ⟨rfl, claim_C8_cloud_guard (initJiraClient demoServerCfg).1 Verb.get
    "/test/url" [] none [] rfl⟩

/-- C3 counterexample: with the basic-auth configuration of
`test_init_with_basic_auth`, `JiraClient.__init__` itself invokes the
vendor `Jira` constructor exactly once — a vendor client is created
before any call needs one, refuting "no vendor client is created until
a call needs it" (the `jira` attribute is nonetheless `None`, as the
claim also says). -/
theorem claim_C3_counterexample :
    ((initJiraClient demoBasicCfg).2.filter ClientEvent.isVendorCreate).length = 1 ∧
    (initJiraClient demoBasicCfg).1.jira = none := ⟨rfl, rfl⟩

/-- C3 (amended): immediately after `JiraClient(config)` returns, the
`jira` attribute and both caches are `None` and no HTTP request has
been performed; however, for basic and token auth the vendor
constructor is invoked eagerly during `__init__` (its product is just
not stored in `jira`). -/
theorem claim_C3_init_state (cfg : JiraConfig) :
    (initJiraClient cfg).1.jira = none ∧
    (initJiraClient cfg).1.field_ids_cache = none ∧
    (initJiraClient cfg).1.current_user_account_id = none ∧
    ((initJiraClient cfg).2.filter ClientEvent.isHttpRequest) = [] ∧
    ((initVendorAuth cfg).isSome = false →
      (initJiraClient cfg).2.filter ClientEvent.isVendorCreate = []) := by
  cases hv : initVendorAuth cfg with
  | none => simp [initJiraClient, hv, ClientEvent.isHttpRequest]
  | some auth =>
    cases hnp : cfg.no_proxy <;>
      simp [initJiraClient, hv, noProxyEvents, hnp, ClientEvent.isHttpRequest]

/-- C4: `_create_jira_client_with_pat(pat)` builds a vendor client
authenticated with exactly the supplied token while reusing the server
configuration's URL, cloud flag and SSL-verify setting, configures SSL
verification on the new session with the same setting, copies the
configured proxies onto that session, returns the new client, and
leaves the server's state (configuration and credentials) unchanged. -/
theorem claim_C4_pat_client (st : JiraClientState) (pat : String) :
    (create_jira_client_with_pat st pat).client.auth = .token pat ∧
    (create_jira_client_with_pat st pat).client.url = st.config.url ∧
    (create_jira_client_with_pat st pat).client.cloud = st.config.is_cloud ∧
    (create_jira_client_with_pat st pat).client.verify_ssl = st.config.ssl_verify ∧
    (create_jira_client_with_pat st pat).client.sessionProxies =
      proxyEntries st.config ∧
    ClientEvent.configureSsl serviceJira st.config.url st.config.ssl_verify ∈
      (create_jira_client_with_pat st pat).events ∧
    (create_jira_client_with_pat st pat).state = st := by
  refine ⟨rfl, rfl, rfl, rfl, rfl, ?_, rfl⟩
  simp [create_jira_client_with_pat]

/-- C7: a client constructed with http/https/socks proxies and a
`no_proxy` value installs each proxy URL under its scheme key in the
session's proxies mapping and exports `NO_PROXY` with the configured
value; with no proxy configured, the session's proxies mapping stays
empty. -/
theorem claim_C7_proxies (url u t hp hs sp np : String) :
    ((initJiraClient
        { url := url, auth_type := authBasic, username := some u,
          api_token := some t, http_proxy := some hp, https_proxy := some hs,
          socks_proxy := some sp, no_proxy := some np }).1.sessionProxies.lookup
        "http" = some hp ∧
      (initJiraClient
        { url := url, auth_type := authBasic, username := some u,
          api_token := some t, http_proxy := some hp, https_proxy := some hs,
          socks_proxy := some sp, no_proxy := some np }).1.sessionProxies.lookup
        "https" = some hs ∧
      (initJiraClient
        { url := url, auth_type := authBasic, username := some u,
          api_token := some t, http_proxy := some hp, https_proxy := some hs,
          socks_proxy := some sp, no_proxy := some np }).1.sessionProxies.lookup
        "socks" = some sp ∧
      ClientEvent.setEnv noProxyEnvVar np ∈
        (initJiraClient
          { url := url, auth_type := authBasic, username := some u,
            api_token := some t, http_proxy := some hp, https_proxy := some hs,
            socks_proxy := some sp, no_proxy := some np }).2) ∧
    (initJiraClient
        { url := url, auth_type := authBasic, username := some u,
          api_token := some t }).1.sessionProxies = [] := by
  refine ⟨⟨?_, ?_, ?_, ?_⟩, ?_⟩ <;>
    simp [initJiraClient, initVendorAuth, authBasic, authToken,
      proxyEntries, noProxyEvents, List.lookup]

/-- C10 counterexample: the fixed log line of
`_create_jira_client_with_pat` contains the character sequence `PAT`,
so for the token value "PAT" the token string does appear inside a log
message emitted while the per-request client is created. -/
theorem claim_C10_counterexample :
    (create_jira_client_with_pat demoSt "PAT").logs = [patLogMsg] ∧
    strOccurs "PAT" patLogMsg := by
  refine ⟨rfl, ?_⟩
  show "PAT".data <:+: patLogMsg.data
  decide

/-- C10 (amended): the log output of `_create_jira_client_with_pat` is
independent of the token value — it is the one fixed line for every
token, so two runs with different tokens produce identical log text and
nothing about the token leaks into the log (a token can only appear in
it by coinciding with a fragment of the fixed line). -/
theorem claim_C10_log_independent (st : JiraClientState) (p₁ p₂ : String) :
    (create_jira_client_with_pat st p₁).logs =
      (create_jira_client_with_pat st p₂).logs ∧
    (create_jira_client_with_pat st p₁).logs = [patLogMsg] := ⟨rfl, rfl⟩

/-- C9: with the lifespan context absent (`none`) or its Jira client
unset (`some none`), every tool raises
`ValueError("Jira client is not configured or available.")` with no
client call made and no JSON result produced — except `search`, which
raises a `RuntimeError` with the message "Jira client is not
initialized in the server lifespan context." instead. -/
theorem claim_C9_missing_client_guard :
    (∀ uid pat rsp,
      Tools.get_user_profile none uid pat rsp =
        ([], .error (.valueError noClientMsg)) ∧
      Tools.get_user_profile (some none) uid pat rsp =
        ([], .error (.valueError noClientMsg))) ∧
    (∀ jql tok fields limit sa pf ex rsp,
      Tools.search none jql tok fields limit sa pf ex rsp =
        ([], .error (.runtimeError searchNoClientMsg)) ∧
      Tools.search (some none) jql tok fields limit sa pf ex rsp =
        ([], .error (.runtimeError searchNoClientMsg))) ∧
    (∀ ik pat fields ex cl pr uh rsp,
      Tools.get_issue none ik pat fields ex cl pr uh rsp =
        ([], .error (.valueError noClientMsg)) ∧
      Tools.get_issue (some none) ik pat fields ex cl pr uh rsp =
        ([], .error (.valueError noClientMsg))) ∧
    (∀ pat kw lim rf rsp,
      Tools.search_fields none pat kw lim rf rsp =
        ([], .error (.valueError noClientMsg)) ∧
      Tools.search_fields (some none) pat kw lim rf rsp =
        ([], .error (.valueError noClientMsg))) ∧
    (∀ pk pat lim sa rsp,
      Tools.get_project_issues none pk pat lim sa rsp =
        ([], .error (.valueError noClientMsg)) ∧
      Tools.get_project_issues (some none) pk pat lim sa rsp =
        ([], .error (.valueError noClientMsg))) ∧
    (∀ ik pat rsp,
      Tools.get_transitions none ik pat rsp =
        ([], .error (.valueError noClientMsg)) ∧
      Tools.get_transitions (some none) ik pat rsp =
        ([], .error (.valueError noClientMsg))) ∧
    (∀ ik pat rsp,
      Tools.get_worklog none ik pat rsp =
        ([], .error (.valueError noClientMsg)) ∧
      Tools.get_worklog (some none) ik pat rsp =
        ([], .error (.valueError noClientMsg))) ∧
    (∀ ik td pat rsp,
      Tools.download_attachments none ik td pat rsp =
        ([], .error (.valueError noClientMsg)) ∧
      Tools.download_attachments (some none) ik td pat rsp =
        ([], .error (.valueError noClientMsg))) ∧
    (∀ pat bn pk bt sa lim rsp,
      Tools.get_agile_boards none pat bn pk bt sa lim rsp =
        ([], .error (.valueError noClientMsg)) ∧
      Tools.get_agile_boards (some none) pat bn pk bt sa lim rsp =
        ([], .error (.valueError noClientMsg))) ∧
    (∀ bid jql pat fields sa lim ex rsp,
      Tools.get_board_issues none bid jql pat fields sa lim ex rsp =
        ([], .error (.valueError noClientMsg)) ∧
      Tools.get_board_issues (some none) bid jql pat fields sa lim ex rsp =
        ([], .error (.valueError noClientMsg))) ∧
    (∀ bid pat s sa lim rsp,
      Tools.get_sprints_from_board none bid pat s sa lim rsp =
        ([], .error (.valueError noClientMsg)) ∧
      Tools.get_sprints_from_board (some none) bid pat s sa lim rsp =
        ([], .error (.valueError noClientMsg))) ∧
    (∀ bid sid pat fields sa lim ex rsp,
      Tools.get_sprint_issues none bid sid pat fields sa lim ex rsp =
        ([], .error (.valueError noClientMsg)) ∧
      Tools.get_sprint_issues (some none) bid sid pat fields sa lim ex rsp =
        ([], .error (.valueError noClientMsg))) ∧
    (∀ pat rsp,
      Tools.get_link_types none pat rsp =
        ([], .error (.valueError noClientMsg)) ∧
      Tools.get_link_types (some none) pat rsp =
        ([], .error (.valueError noClientMsg))) ∧
    (∀ pk it s pat d pk2 ai ri pn lb dd cf rsp,
      Tools.create_issue none pk it s pat d pk2 ai ri pn lb dd cf rsp =
        ([], .error (.valueError noClientMsg)) ∧
      Tools.create_issue (some none) pk it s pat d pk2 ai ri pn lb dd cf rsp =
        ([], .error (.valueError noClientMsg))) ∧
    (∀ issues pat rsp,
      Tools.batch_create_issues none issues pat rsp =
        ([], .error (.valueError noClientMsg)) ∧
      Tools.batch_create_issues (some none) issues pat rsp =
        ([], .error (.valueError noClientMsg))) ∧
    (∀ pat keys sa lim rsp,
      Tools.batch_get_changelogs none pat keys sa lim rsp =
        ([], .error (.valueError noClientMsg)) ∧
      Tools.batch_get_changelogs (some none) pat keys sa lim rsp =
        ([], .error (.valueError noClientMsg))) := by
  refine ⟨?_, ?_, ?_, ?_, ?_, ?_, ?_, ?_, ?_, ?_, ?_, ?_, ?_, ?_, ?_, ?_⟩ <;>
    · intros
      exact ⟨rfl, rfl⟩

/-- C5 counterexample: when the client call inside
`batch_get_changelogs` raises, the tool returns the JSON object
`{"error": "Failed to get changelogs: boom"}` — it catches and formats
the error, but the payload carries no `success` flag, refuting "the
same catch-and-format shape (success flag plus error message)" for this
tool. -/
theorem claim_C5_counterexample :
    (Tools.batch_get_changelogs (some (some ())) "pat" ["PROJ-1"] 0 10
        (.error (.other "boom"))).2 =
      .ok (dumps (.obj [("error", .str "Failed to get changelogs: boom")])) ∧
    ([("error", Json.str "Failed to get changelogs: boom")].lookup "success")
      = none ∧
    ([("error", Json.str "Failed to get changelogs: boom")].lookup "error")
      = some (.str "Failed to get changelogs: boom") :=
  ⟨rfl, rfl, rfl⟩

/-- C5 (amended): `get_user_profile` swallows every exception of its
client call and returns `{"success": false, "error": str(e),
"user_identifier": ...}` (and `{"success": true, "user": ...}` on
success); `create_issue` and `batch_create_issues` likewise catch every
exception and return a `success`-flagged error object; and
`batch_get_changelogs` also catches every exception and returns a JSON
error object, but its payload is `{"error": message}` with no success
flag (and its success payload `{"changelogs": ...}` carries none
either). -/
theorem claim_C5_error_shapes :
    (∀ uid pat (e : PyErr),
      (Tools.get_user_profile (some (some ())) uid pat (.error e)).2 =
        .ok (dumps (.obj [("success", .bool false), ("error", .str e.msg),
                          ("user_identifier", .str uid)]))) ∧
    (∀ uid pat user,
      (Tools.get_user_profile (some (some ())) uid pat (.ok user)).2 =
        .ok (dumps (.obj [("success", .bool true), ("user", user)]))) ∧
    (∀ pk it s pat d pk2 ai ri pn lb dd cf (e : PyErr),
      (Tools.create_issue (some (some ())) pk it s pat d pk2 ai ri pn lb dd cf
          (.error e)).2 =
        .ok (dumps (.obj [("success", .bool false),
          ("error", .str ("Failed to create issue: " ++ e.msg))]))) ∧
    (∀ issues pat (e : PyErr),
      (Tools.batch_create_issues (some (some ())) issues pat (.error e)).2 =
        .ok (dumps (.obj [("success", .bool false),
          ("error", .str ("Failed to batch create issues: " ++ e.msg))]))) ∧
    (∀ pat keys sa lim (e : PyErr),
      (Tools.batch_get_changelogs (some (some ())) pat keys sa lim
          (.error e)).2 =
        .ok (dumps (.obj [("error",
          .str ("Failed to get changelogs: " ++ e.msg))]))) ∧
    (∀ pat keys sa lim changelogs,
      (Tools.batch_get_changelogs (some (some ())) pat keys sa lim
          (.ok changelogs)).2 =
        .ok (dumps (.obj [("changelogs", changelogs)]))) := by
  refine ⟨?_, ?_, ?_, ?_, ?_, ?_⟩ <;>
    · intros
      rfl

/-- C6 counterexample: `get_sprints_from_board` (one of the claim's own
cited sources) serializes a JSON array, not a mapping: its successful
result is `dumps` of `Json.arr ...`, which is not an object. -/
theorem claim_C6_counterexample :
    (Tools.get_sprints_from_board (some (some ())) "1001" "pat" none 0 10
        (.ok [Json.obj [("id", .num 1)]])).2 =
      .ok (dumps (.arr [Json.obj [("id", .num 1)]])) ∧
    (Json.arr [Json.obj [("id", .num 1)]]).isObj = false :=
  ⟨rfl, rfl⟩

/-- C6 (amended): every tool follows the same straight pipeline: it
resolves the Jira client from the lifespan context, makes exactly one
client-method call whatever that call's outcome (so no tool makes a
second call or retries after a failure), passes the per-request PAT
along (except `search`, which does not forward its token parameter),
transforms the result to a JSON value — a mapping for most tools, a
JSON array for the board/sprint/transition/link-type listings — and
returns it serialized by `dumps`, the `indent=2, ensure_ascii=False`
serializer. -/
theorem claim_C6_pipeline :
    (∀ uid pat rsp,
      (Tools.get_user_profile (some (some ())) uid pat rsp).1.length = 1 ∧
      ∀ c ∈ (Tools.get_user_profile (some (some ())) uid pat rsp).1,
        ("jira_pat", PyVal.str pat) ∈ c.args) ∧
    (∀ uid pat user,
      (Tools.get_user_profile (some (some ())) uid pat (.ok user)).2 =
        .ok (dumps (.obj [("success", .bool true), ("user", user)]))) ∧
    (∀ ik pat fields ex cl pr uh rsp,
      (Tools.get_issue (some (some ())) ik pat fields ex cl pr uh rsp).1.length = 1 ∧
      ∀ c ∈ (Tools.get_issue (some (some ())) ik pat fields ex cl pr uh rsp).1,
        ("jira_pat", PyVal.str pat) ∈ c.args) ∧
    (∀ ik pat fields ex cl pr uh r,
      (Tools.get_issue (some (some ())) ik pat fields ex cl pr uh (.ok r)).2 =
        .ok (dumps r)) ∧
    (∀ jql tok fields limit sa pf ex rsp,
      (Tools.search (some (some ())) jql tok fields limit sa pf ex rsp).1.length = 1 ∧
      ∀ c ∈ (Tools.search (some (some ())) jql tok fields limit sa pf ex rsp).1,
        c.method = "search_issues") ∧
    (∀ jql tok fields limit sa pf ex r,
      (Tools.search (some (some ())) jql tok fields limit sa pf ex (.ok r)).2 =
        .ok (dumps r)) ∧
    (∀ pat kw lim rf rsp,
      (Tools.search_fields (some (some ())) pat kw lim rf rsp).1.length = 1 ∧
      ∀ c ∈ (Tools.search_fields (some (some ())) pat kw lim rf rsp).1,
        ("jira_pat", PyVal.str pat) ∈ c.args) ∧
    (∀ pat kw lim rf r,
      (Tools.search_fields (some (some ())) pat kw lim rf (.ok r)).2 =
        .ok (dumps r)) ∧
    (∀ pk pat lim sa rsp,
      (Tools.get_project_issues (some (some ())) pk pat lim sa rsp).1.length = 1 ∧
      ∀ c ∈ (Tools.get_project_issues (some (some ())) pk pat lim sa rsp).1,
        ("jira_pat", PyVal.str pat) ∈ c.args) ∧
    (∀ pk pat lim sa r,
      (Tools.get_project_issues (some (some ())) pk pat lim sa (.ok r)).2 =
        .ok (dumps r)) ∧
    (∀ ik pat rsp,
      (Tools.get_transitions (some (some ())) ik pat rsp).1.length = 1 ∧
      ∀ c ∈ (Tools.get_transitions (some (some ())) ik pat rsp).1,
        ("jira_pat", PyVal.str pat) ∈ c.args) ∧
    (∀ ik pat r,
      (Tools.get_transitions (some (some ())) ik pat (.ok r)).2 =
        .ok (dumps r)) ∧
    (∀ ik pat rsp,
      (Tools.get_worklog (some (some ())) ik pat rsp).1.length = 1 ∧
      ∀ c ∈ (Tools.get_worklog (some (some ())) ik pat rsp).1,
        ("jira_pat", PyVal.str pat) ∈ c.args) ∧
    (∀ ik pat r,
      (Tools.get_worklog (some (some ())) ik pat (.ok r)).2 =
        .ok (dumps (.obj [("worklogs", r)]))) ∧
    (∀ ik td pat rsp,
      (Tools.download_attachments (some (some ())) ik td pat rsp).1.length = 1 ∧
      ∀ c ∈ (Tools.download_attachments (some (some ())) ik td pat rsp).1,
        ("jira_pat", PyVal.str pat) ∈ c.args) ∧
    (∀ ik td pat r,
      (Tools.download_attachments (some (some ())) ik td pat (.ok r)).2 =
        .ok (dumps r)) ∧
    (∀ pat bn pk bt sa lim rsp,
      (Tools.get_agile_boards (some (some ())) pat bn pk bt sa lim rsp).1.length = 1 ∧
      ∀ c ∈ (Tools.get_agile_boards (some (some ())) pat bn pk bt sa lim rsp).1,
        ("jira_pat", PyVal.str pat) ∈ c.args) ∧
    (∀ pat bn pk bt sa lim r,
      (Tools.get_agile_boards (some (some ())) pat bn pk bt sa lim (.ok r)).2 =
        .ok (dumps (.arr r))) ∧
    (∀ bid jql pat fields sa lim ex rsp,
      (Tools.get_board_issues (some (some ())) bid jql pat fields sa lim ex rsp).1.length = 1 ∧
      ∀ c ∈ (Tools.get_board_issues (some (some ())) bid jql pat fields sa lim ex rsp).1,
        ("jira_pat", PyVal.str pat) ∈ c.args) ∧
    (∀ bid jql pat fields sa lim ex r,
      (Tools.get_board_issues (some (some ())) bid jql pat fields sa lim ex (.ok r)).2 =
        .ok (dumps r)) ∧
    (∀ bid pat s sa lim rsp,
      (Tools.get_sprints_from_board (some (some ())) bid pat s sa lim rsp).1.length = 1 ∧
      ∀ c ∈ (Tools.get_sprints_from_board (some (some ())) bid pat s sa lim rsp).1,
        ("jira_pat", PyVal.str pat) ∈ c.args) ∧
    (∀ bid pat s sa lim r,
      (Tools.get_sprints_from_board (some (some ())) bid pat s sa lim (.ok r)).2 =
        .ok (dumps (.arr r))) ∧
    (∀ bid sid pat fields sa lim ex rsp,
      (Tools.get_sprint_issues (some (some ())) bid sid pat fields sa lim ex rsp).1.length = 1 ∧
      ∀ c ∈ (Tools.get_sprint_issues (some (some ())) bid sid pat fields sa lim ex rsp).1,
        ("jira_pat", PyVal.str pat) ∈ c.args) ∧
    (∀ bid sid pat fields sa lim ex r,
      (Tools.get_sprint_issues (some (some ())) bid sid pat fields sa lim ex (.ok r)).2 =
        .ok (dumps r)) ∧
    (∀ pat rsp,
      (Tools.get_link_types (some (some ())) pat rsp).1.length = 1 ∧
      ∀ c ∈ (Tools.get_link_types (some (some ())) pat rsp).1,
        ("jira_pat", PyVal.str pat) ∈ c.args) ∧
    (∀ pat r,
      (Tools.get_link_types (some (some ())) pat (.ok r)).2 =
        .ok (dumps r)) ∧
    (∀ pk it s pat d pk2 ai ri pn lb dd cf rsp,
      (Tools.create_issue (some (some ())) pk it s pat d pk2 ai ri pn lb dd cf rsp).1.length = 1 ∧
      ∀ c ∈ (Tools.create_issue (some (some ())) pk it s pat d pk2 ai ri pn lb dd cf rsp).1,
        ("jira_pat", PyVal.str pat) ∈ c.args) ∧
    (∀ pk it s pat d pk2 ai ri pn lb dd cf r,
      (Tools.create_issue (some (some ())) pk it s pat d pk2 ai ri pn lb dd cf (.ok r)).2 =
        .ok (dumps (.obj [("success", .bool true), ("issue", r)]))) ∧
    (∀ issues pat rsp,
      (Tools.batch_create_issues (some (some ())) issues pat rsp).1.length = 1 ∧
      ∀ c ∈ (Tools.batch_create_issues (some (some ())) issues pat rsp).1,
        ("jira_pat", PyVal.str pat) ∈ c.args) ∧
    (∀ issues pat r,
      (Tools.batch_create_issues (some (some ())) issues pat (.ok r)).2 =
        .ok (dumps (.obj [("success", .bool true), ("results", r)]))) ∧
    (∀ pat keys sa lim rsp,
      (Tools.batch_get_changelogs (some (some ())) pat keys sa lim rsp).1.length = 1 ∧
      ∀ c ∈ (Tools.batch_get_changelogs (some (some ())) pat keys sa lim rsp).1,
        ("jira_pat", PyVal.str pat) ∈ c.args) ∧
    (∀ pat keys sa lim r,
      (Tools.batch_get_changelogs (some (some ())) pat keys sa lim (.ok r)).2 =
        .ok (dumps (.obj [("changelogs", r)]))) := by
  refine ⟨?_, ?_, ?_, ?_, ?_, ?_, ?_, ?_, ?_, ?_, ?_, ?_, ?_, ?_, ?_, ?_,
    ?_, ?_, ?_, ?_, ?_, ?_, ?_, ?_, ?_, ?_, ?_, ?_, ?_, ?_, ?_, ?_⟩ <;>
    intros <;>
    first
      | rfl
      | (refine ⟨rfl, ?_⟩
         intro c hc
         cases List.eq_of_mem_singleton hc
         simp)
